import Mathlib

/-!
Verification of the deterministic business logic of the Smart Insurance
Cost Predictor (src/app1.py): the feature encoder, the heuristic risk
scorer, the cost-breakdown allocator, the recommendation rules and the
cost-rating label. Python floats are modelled as rationals, integers as
Lean integers, and dictionary lookups as Option-valued functions.
-/

/-- A dynamically typed Python value, needed where the source compares a
boolean with a string: Python `==` between values of different types is
`False`. -/
inductive PyVal where
  | pyBool (b : Bool)
  | pyStr (s : String)
deriving DecidableEq

/-- Python equality between dynamically typed values: equal types compare
structurally, a boolean and a string are never equal. -/
def pyEq : PyVal → PyVal → Bool
  | PyVal.pyBool a, PyVal.pyBool b => a == b
  | PyVal.pyStr a, PyVal.pyStr b => a == b
  | _, _ => false

/-- `calculate_health_metrics` from src/app1.py lines 137-155: age factor
`(age // 10) * 5`, a four-bucket BMI factor, a smoker factor added when
`smoker == "Yes"`, and an upper clamp at 100. The `smoker` argument is a
`PyVal` because the function body compares it against the string "Yes"
while the call site passes a boolean. Python `//` is floor division,
hence `Int.fdiv`. -/
def calculate_health_metrics (age : ℤ) (bmi : ℚ) (smoker : PyVal) : ℤ :=
  let r0 : ℤ := 0
  let r1 : ℤ := r0 + (Int.fdiv age 10) * 5
  let r2 : ℤ :=
    if bmi < 18.5 then r1 + 10
    else if 18.5 ≤ bmi ∧ bmi < 25 then r1 + 0
    else if 25 ≤ bmi ∧ bmi < 30 then r1 + 15
    else r1 + 25
  let r3 : ℤ := if pyEq smoker (PyVal.pyStr "Yes") then r2 + 50 else r2
  min r3 100

/-- The call site at src/app1.py line 266: the app passes the boolean
`smoker == "Yes"` into `calculate_health_metrics`. -/
def app_risk_score (age : ℤ) (bmi : ℚ) (smoker : String) : ℤ :=
  calculate_health_metrics age bmi (PyVal.pyBool (smoker == "Yes"))

/-- `gender_mapping` dict (line 244); a key outside the dict raises, hence
`none`. -/
def gender_mapping : String → Option ℤ
  | "Female" => some 0
  | "Male" => some 1
  | _ => none

/-- `smoker_mapping` dict (line 245). -/
def smoker_mapping : String → Option ℤ
  | "Yes" => some 1
  | "No" => some 0
  | _ => none

/-- `region_mapping` dict (lines 246-251): one-hot over the first three
regions, southwest as the all-zero baseline. -/
def region_mapping : String → Option (List ℚ)
  | "northeast" => some [1, 0, 0]
  | "northwest" => some [0, 1, 0]
  | "southeast" => some [0, 0, 1]
  | "southwest" => some [0, 0, 0]
  | _ => none

/-- `input_data` (lines 253-260): the feature list
`[gender, age, bmi, smoker, *region, children]`, with the region flags
spliced in. A missing dictionary key makes the whole construction fail. -/
def input_data (gender : String) (age : ℤ) (bmi : ℚ) (smoker : String)
    (region : String) (children : ℤ) : Option (List ℚ) := do
  let g ← gender_mapping gender
  let s ← smoker_mapping smoker
  let r ← region_mapping region
  return [(g : ℚ), (age : ℚ), bmi, (s : ℚ)] ++ r ++ [(children : ℚ)]

/-- The fixed labels of `create_cost_breakdown` (line 186). -/
def breakdown_labels : List String :=
  ["Base Cost", "Age Factor", "BMI Factor", "Smoking Factor", "Region Factor"]

/-- The values of `create_cost_breakdown` (lines 187-194). -/
def breakdown_values (prediction : ℚ) : List ℚ :=
  let base_cost := prediction * 0.4
  [base_cost, prediction * 0.15, prediction * 0.15, prediction * 0.2,
    prediction * 0.1]

/-- `create_cost_breakdown` (lines 185-194) as the labelled pairs fed to
the pie chart. -/
def create_cost_breakdown (prediction : ℚ) : List (String × ℚ) :=
  List.zip breakdown_labels (breakdown_values prediction)

/-- Recommendation strings (lines 307-314). -/
def wellness_rec : String :=
  "• Consider a wellness program to maintain a healthy BMI"

def quit_rec : String :=
  "• Quitting smoking could significantly reduce your premium"

def checkup_rec : String :=
  "• Regular health check-ups recommended"

def default_rec : String :=
  "• Continue maintaining your healthy lifestyle"

/-- The recommendation list built at src/app1.py lines 305-314: three
independent threshold rules appending in a fixed order, then the default
line when the list is still empty. -/
def recommendations (bmi : ℚ) (smoker : String) (age : ℤ) : List String :=
  let recs : List String := []
  let recs := if bmi > 25 then recs ++ [wellness_rec] else recs
  let recs := if smoker = "Yes" then recs ++ [quit_rec] else recs
  let recs := if age > 50 then recs ++ [checkup_rec] else recs
  if recs.isEmpty then [default_rec] else recs

/-- The Cost Rating metric at src/app1.py line 293. -/
def cost_rating (prediction : ℚ) : String :=
  if prediction < 10000 then "Average" else "High"

/-- The BMI bucket factor as the spec states it: half-open buckets. Used
to compare the code's inlined bucket chain against the spec's words. -/
def bmiFactorSpec (bmi : ℚ) : ℤ :=
  if bmi < 18.5 then 10
  else if bmi < 25 then 0
  else if bmi < 30 then 15
  else 25

/-- A boolean is never Python-equal to a string. -/
theorem pyEq_bool_str (b : Bool) (s : String) :
    pyEq (PyVal.pyBool b) (PyVal.pyStr s) = false := rfl

/-- Closed form of the scorer when it receives a boolean (as the app's
call site always does): the smoker branch never fires, leaving only the
age and BMI factors under the clamp. -/
theorem health_metrics_bool_eq (age : ℤ) (bmi : ℚ) (b : Bool) :
    calculate_health_metrics age bmi (PyVal.pyBool b)
      = min (Int.fdiv age 10 * 5 + bmiFactorSpec bmi) 100 := by
  unfold calculate_health_metrics bmiFactorSpec
  simp only [pyEq_bool_str, Bool.false_eq_true, if_false]
  generalize Int.fdiv age 10 = A
  rcases lt_or_le bmi (18.5 : ℚ) with h1 | h1
  · simp only [if_pos h1]
    omega
  · simp only [if_neg (not_lt.mpr h1)]
    rcases lt_or_le bmi (25 : ℚ) with h2 | h2
    · simp only [if_pos (And.intro h1 h2), if_pos h2]
      omega
    · have h2n : ¬ ((18.5 : ℚ) ≤ bmi ∧ bmi < 25) := fun hc => not_lt.mpr h2 hc.2
      simp only [if_neg (not_lt.mpr h2), if_neg h2n]
      rcases lt_or_le bmi (30 : ℚ) with h3 | h3
      · simp only [if_pos (And.intro h2 h3), if_pos h3]
        omega
      · have h3n : ¬ ((25 : ℚ) ≤ bmi ∧ bmi < 30) := fun hc => not_lt.mpr h3 hc.2
        simp only [if_neg (not_lt.mpr h3), if_neg h3n]
        omega

/-- The scorer always produces `min raw 100` for a raw factor sum that is
non-negative whenever the age is. -/
theorem health_metrics_as_min (age : ℤ) (bmi : ℚ) (smoker : PyVal) :
    ∃ raw : ℤ, calculate_health_metrics age bmi smoker = min raw 100 ∧
      (0 ≤ age → 0 ≤ raw) := by
  unfold calculate_health_metrics
  refine ⟨_, rfl, ?_⟩
  intro h
  have hfd : 0 ≤ Int.fdiv age 10 := Int.fdiv_nonneg h (by norm_num)
  split_ifs <;> linarith

/-- C1: the claim says the smoker factor of 50 is added whenever smoker is
true, with score(55, 32.0, true) = 100. On the code as wired, the call
site passes the boolean `smoker == "Yes"` while the function body compares
that boolean with the string "Yes", which is always false in Python, so
the factor is never added: the app computes 50 at that input, not 100. In
isolation the function does yield 100 when handed the string "Yes",
showing the intended behaviour the claim describes. -/
theorem C1_smoker_factor_never_applied :
    app_risk_score 55 32 "Yes" = 50 ∧
    app_risk_score 55 32 "Yes" ≠ 100 ∧
    calculate_health_metrics 55 32 (PyVal.pyStr "Yes") = 100 := by
  refine ⟨?_, ?_, ?_⟩ <;>
    norm_num [app_risk_score, calculate_health_metrics, pyEq, Int.fdiv]

/-- C4: the BMI factor uses half-open buckets (underweight 10, normal 0,
overweight 15, obese 25, with 25.0 in the 15-point bucket and 18.5 in the
0-point bucket), the age factor is floor(age/10)*5, and
score(19, 17.0, false) = 15. -/
theorem C4_bmi_buckets (age : ℤ) (bmi : ℚ) (b : Bool) :
    calculate_health_metrics age bmi (PyVal.pyBool b)
      = min (Int.fdiv age 10 * 5 + bmiFactorSpec bmi) 100 ∧
    bmiFactorSpec 25 = 15 ∧
    bmiFactorSpec (18.5 : ℚ) = 0 ∧
    (∀ x : ℚ, x < 18.5 → bmiFactorSpec x = 10) ∧
    (∀ x : ℚ, 18.5 ≤ x → x < 25 → bmiFactorSpec x = 0) ∧
    (∀ x : ℚ, 25 ≤ x → x < 30 → bmiFactorSpec x = 15) ∧
    (∀ x : ℚ, 30 ≤ x → bmiFactorSpec x = 25) ∧
    calculate_health_metrics 19 17 (PyVal.pyBool false) = 15 := by
  refine ⟨health_metrics_bool_eq age bmi b,
    by norm_num [bmiFactorSpec], by norm_num [bmiFactorSpec],
    fun x hx => ?_, fun x hx1 hx2 => ?_, fun x hx1 hx2 => ?_,
    fun x hx => ?_,
    by norm_num [calculate_health_metrics, pyEq, Int.fdiv]⟩ <;>
  · unfold bmiFactorSpec
    split_ifs <;> linarith

/-- C9: as implemented, the risk score cannot depend on the smoking
answer: the call site passes the boolean smoker == "Yes" and the function
compares that boolean with a string, so two runs differing only in the
smoker input produce the same score. -/
theorem C9_smoker_noninterference (age : ℤ) (bmi : ℚ) (s₁ s₂ : String) :
    app_risk_score age bmi s₁ = app_risk_score age bmi s₂ := by
  unfold app_risk_score
  rw [health_metrics_bool_eq, health_metrics_bool_eq]

/-- C10: the Cost Rating label is "Average" exactly when the prediction is
strictly below 10000 and "High" exactly otherwise. -/
theorem C10_cost_rating_threshold (p : ℚ) :
    (cost_rating p = "Average" ↔ p < 10000) ∧
    (cost_rating p = "High" ↔ ¬ p < 10000) := by
  have hne : ("Average" : String) ≠ "High" := by decide
  unfold cost_rating
  by_cases h : p < 10000 <;> simp [h, hne, Ne.symm hne]

/-- C8: for every valid input (age in [18,100], bmi in [15,50], any smoker
value) the risk score is min of a non-negative raw factor sum and 100,
hence an integer in [0,100]. -/
theorem C8_risk_score_bounds (age : ℤ) (bmi : ℚ) (smoker : PyVal)
    (h1 : 18 ≤ age) (h2 : age ≤ 100)
    (h3 : (15 : ℚ) ≤ bmi) (h4 : bmi ≤ 50) :
    (∃ raw : ℤ, 0 ≤ raw ∧
      calculate_health_metrics age bmi smoker = min raw 100) ∧
    0 ≤ calculate_health_metrics age bmi smoker ∧
    calculate_health_metrics age bmi smoker ≤ 100 := by
  obtain ⟨raw, heq, hraw⟩ := health_metrics_as_min age bmi smoker
  have h0 : 0 ≤ raw := hraw (by linarith)
  refine ⟨⟨raw, h0, heq⟩, ?_, ?_⟩
  · rw [heq]
    exact le_min h0 (by norm_num)
  · rw [heq]
    exact min_le_right _ _

/-- Witness for C8 at age 25, bmi 22, smoker "No". -/
theorem C8_risk_score_bounds_witness :
    (18 : ℤ) ≤ 25 ∧ (25 : ℤ) ≤ 100 ∧ (15 : ℚ) ≤ 22 ∧ (22 : ℚ) ≤ 50 ∧
    (0 ≤ calculate_health_metrics 25 22 (PyVal.pyStr "No") ∧
      calculate_health_metrics 25 22 (PyVal.pyStr "No") ≤ 100) :=
  ⟨by decide, by decide, by decide, by decide,
    (C8_risk_score_bounds 25 22 (PyVal.pyStr "No")
      (by decide) (by decide) (by decide) (by decide)).2⟩

/-- C5: for every prediction p ≥ 0 the breakdown is exactly the five
labelled pairs with values 0.4p, 0.15p, 0.15p, 0.2p, 0.1p, and the values
sum to p (exactly in the rational model, so certainly within 1e-9). -/
theorem C5_cost_breakdown_allocation (p : ℚ) (hp : 0 ≤ p) :
    create_cost_breakdown p =
      [("Base Cost", p * 0.4), ("Age Factor", p * 0.15),
       ("BMI Factor", p * 0.15), ("Smoking Factor", p * 0.2),
       ("Region Factor", p * 0.1)] ∧
    (create_cost_breakdown p).length = 5 ∧
    ((create_cost_breakdown p).map Prod.snd).sum = p ∧
    |((create_cost_breakdown p).map Prod.snd).sum - p| ≤ 1e-9 := by
  have hlist : create_cost_breakdown p =
      [("Base Cost", p * 0.4), ("Age Factor", p * 0.15),
       ("BMI Factor", p * 0.15), ("Smoking Factor", p * 0.2),
       ("Region Factor", p * 0.1)] := by
    simp [create_cost_breakdown, breakdown_values, breakdown_labels]
  have hsum : ((create_cost_breakdown p).map Prod.snd).sum = p := by
    rw [hlist]
    simp [List.sum_cons]
    ring_nf
  refine ⟨hlist, by rw [hlist]; rfl, hsum, ?_⟩
  rw [hsum]
  norm_num

/-- Witness for C5 at p = 1000. -/
theorem C5_cost_breakdown_allocation_witness :
    (0 : ℚ) ≤ 1000 ∧
    ((create_cost_breakdown 1000).map Prod.snd).sum = 1000 :=
  ⟨by decide, (C5_cost_breakdown_allocation 1000 (by decide)).2.2.1⟩

/-- C6: the three recommendation rules are independent and evaluated in
the fixed order wellness (bmi > 25), quitting (smoker = "Yes"), checkup
(age > 50); the default line appears exactly when none trigger; and at
bmi 30, smoker "No", age 60 the output is exactly the wellness line
followed by the checkup line, with no smoking-cessation line. -/
theorem C6_recommendation_rules (age : ℤ) (bmi : ℚ) (smoker : String) :
    ((bmi > 25 ∨ smoker = "Yes" ∨ age > 50) →
      recommendations bmi smoker age =
        (if bmi > 25 then [wellness_rec] else []) ++
        (if smoker = "Yes" then [quit_rec] else []) ++
        (if age > 50 then [checkup_rec] else [])) ∧
    (¬ (bmi > 25 ∨ smoker = "Yes" ∨ age > 50) →
      recommendations bmi smoker age = [default_rec]) ∧
    recommendations 30 "No" 60 = [wellness_rec, checkup_rec] ∧
    quit_rec ∉ recommendations 30 "No" 60 ∧
    default_rec ∉ recommendations 30 "No" 60 := by
  have hconc : recommendations 30 "No" 60 = [wellness_rec, checkup_rec] := by
    decide
  refine ⟨?_, ?_, hconc, by rw [hconc]; decide, by rw [hconc]; decide⟩
  · intro h
    by_cases h1 : bmi > 25 <;> by_cases h2 : smoker = "Yes" <;>
      by_cases h3 : age > 50 <;>
      simp [recommendations, h1, h2, h3] <;> tauto
  · intro h
    push_neg at h
    obtain ⟨h1, h2, h3⟩ := h
    simp [recommendations, not_lt.mpr h1, h2, not_lt.mpr h3]

/-- C7: a region string outside the four enumerated regions has no entry
in the region dictionary, so building the feature vector fails instead of
silently defaulting to some encoding. -/
theorem C7_invalid_region_rejected (gender : String) (age : ℤ) (bmi : ℚ)
    (smoker : String) (region : String) (children : ℤ)
    (h1 : region ≠ "northeast") (h2 : region ≠ "northwest")
    (h3 : region ≠ "southeast") (h4 : region ≠ "southwest") :
    region_mapping region = none ∧
    input_data gender age bmi smoker region children = none := by
  have hr : region_mapping region = none := by
    unfold region_mapping
    split <;> simp_all
  refine ⟨hr, ?_⟩
  unfold input_data
  cases hg : gender_mapping gender <;> cases hs : smoker_mapping smoker <;>
    simp [hg, hs, hr]

/-- Witness for C7 at the region string "mars". -/
theorem C7_invalid_region_rejected_witness :
    "mars" ≠ "northeast" ∧ "mars" ≠ "northwest" ∧ "mars" ≠ "southeast" ∧
    "mars" ≠ "southwest" ∧
    input_data "Female" 25 22 "No" "mars" 0 = none :=
  ⟨by decide, by decide, by decide, by decide,
    (C7_invalid_region_rejected "Female" 25 22 "No" "mars" 0
      (by decide) (by decide) (by decide) (by decide)).2⟩

/-- Counterexample to C2: at a perfectly valid input the feature list the
app builds has 8 elements, not the 7 the claim states (it lists gender,
age, bmi, smoker, three region flags and children). -/
theorem C2_feature_length_counterexample :
    Option.map List.length (input_data "Female" 25 22 "No" "northeast" 0)
      = some 8 ∧ (8 : ℕ) ≠ 7 := by
  exact ⟨rfl, by decide⟩

/-- C2 amended: for every valid RawInput the encoder produces a list of
exactly 8 rational numbers. -/
theorem C2_feature_length_amended (gender : String) (age : ℤ) (bmi : ℚ)
    (smoker : String) (region : String) (children : ℤ)
    (hg : gender = "Female" ∨ gender = "Male")
    (hs : smoker = "Yes" ∨ smoker = "No")
    (hr : region = "northeast" ∨ region = "northwest" ∨
      region = "southeast" ∨ region = "southwest") :
    ∃ v : List ℚ, input_data gender age bmi smoker region children = some v ∧
      v.length = 8 := by
  rcases hg with rfl | rfl <;> rcases hs with rfl | rfl <;>
    rcases hr with rfl | rfl | rfl | rfl <;>
    exact ⟨_, rfl, rfl⟩

/-- Witness for the amended C2 at a concrete valid input. -/
theorem C2_feature_length_amended_witness :
    ∃ v : List ℚ, input_data "Female" 30 28 "No" "southwest" 2 = some v ∧
      v.length = 8 :=
  C2_feature_length_amended "Female" 30 28 "No" "southwest" 2
    (Or.inl rfl) (Or.inr rfl) (Or.inr (Or.inr (Or.inr rfl)))

/-- C3: for every valid RawInput the encoder emits, in order, the gender
code (Female 0, Male 1), age, bmi, the smoker code (Yes 1, No 0), the
three region flags, and children; the flags are the one-hot encoding of
the region with southwest as the all-zero baseline, so exactly one flag
is 1 for the three explicit regions and none for southwest. -/
theorem C3_encoding_order (gender : String) (age : ℤ) (bmi : ℚ)
    (smoker : String) (region : String) (children : ℤ)
    (hg : gender = "Female" ∨ gender = "Male")
    (hs : smoker = "Yes" ∨ smoker = "No")
    (hr : region = "northeast" ∨ region = "northwest" ∨
      region = "southeast" ∨ region = "southwest") :
    ∃ flags : List ℚ,
      input_data gender age bmi smoker region children =
        some ([(if gender = "Male" then 1 else 0), (age : ℚ), bmi,
               (if smoker = "Yes" then 1 else 0)] ++ flags ++
              [(children : ℚ)]) ∧
      flags.length = 3 ∧
      (region = "northeast" → flags = [1, 0, 0]) ∧
      (region = "northwest" → flags = [0, 1, 0]) ∧
      (region = "southeast" → flags = [0, 0, 1]) ∧
      (region = "southwest" → flags = [0, 0, 0]) ∧
      flags.count 1 = (if region = "southwest" then 0 else 1) ∧
      flags.count 0 = (if region = "southwest" then 3 else 2) := by
  rcases hg with rfl | rfl <;> rcases hs with rfl | rfl <;>
    rcases hr with rfl | rfl | rfl | rfl <;>
    exact ⟨_, rfl, by decide⟩

/-- Witness for C3 at a concrete valid input. -/
theorem C3_encoding_order_witness :
    ∃ flags : List ℚ,
      input_data "Male" 40 30 "Yes" "southeast" 1 =
        some ([(if "Male" = "Male" then (1 : ℚ) else 0), ((40 : ℤ) : ℚ),
               (30 : ℚ), (if "Yes" = "Yes" then (1 : ℚ) else 0)] ++ flags ++
              [((1 : ℤ) : ℚ)]) ∧
      flags.length = 3 ∧
      ("southeast" = "northeast" → flags = [1, 0, 0]) ∧
      ("southeast" = "northwest" → flags = [0, 1, 0]) ∧
      ("southeast" = "southeast" → flags = [0, 0, 1]) ∧
      ("southeast" = "southwest" → flags = [0, 0, 0]) ∧
      flags.count 1 = (if "southeast" = "southwest" then 0 else 1) ∧
      flags.count 0 = (if "southeast" = "southwest" then 3 else 2) :=
  C3_encoding_order "Male" 40 30 "Yes" "southeast" 1
    (Or.inr rfl) (Or.inl rfl) (Or.inr (Or.inr (Or.inl rfl)))
